import Mathlib

/-!
Verification development for the credential-based authentication and
role-based authorization server.

The JavaScript sources are shallowly embedded as executable Lean
functions.  External collaborators (the bcrypt hasher/comparator and the
express-validator email-syntax predicate) are passed in as function
parameters; the Postgres store is a list of user rows with executable
query functions mirroring the parameterized SQL used by the code.
-/

namespace Server

/-- A row of the `users` table.  Columns follow the INSERT in
src/src/routes/signupRoute.js: name, email, username, password, role,
plus the generated id.  The stored `password` column holds the bcrypt
hash, not the plaintext. -/
structure User where
  id : Nat
  name : String
  email : String
  username : String
  password : String
  role : String
deriving DecidableEq, Repr

/-- The `users` table of the credential store. -/
abbrev Store := List User

/-- Embeds the parameterized query SELECT * FROM users WHERE email = $1
(signupRoute.js line 43, passportConfig.js line 15).  Postgres text
equality is byte-wise, hence case-sensitive. -/
def queryByEmail (db : Store) (email : String) : List User :=
  db.filter (fun u => u.email == email)

/-- Embeds SELECT * FROM users WHERE username = $1 (signupRoute.js
line 48). -/
def queryByUsername (db : Store) (username : String) : List User :=
  db.filter (fun u => u.username == username)

/-- Embeds SELECT * FROM users WHERE id = $1 (passportConfig.js
line 46). -/
def queryById (db : Store) (id : Nat) : List User :=
  db.filter (fun u => u.id == id)

/-- A user object as it appears serialized in a JSON response body.
`password` is `none` when the property was deleted before serialization
(JSON.stringify drops absent properties). -/
structure UserJson where
  id : Nat
  name : String
  email : String
  username : String
  password : Option String
  role : String
deriving DecidableEq, Repr

/-- Bodies of the JSON responses the embedded routes produce. -/
inductive RespBody where
  | msg : String → RespBody
  | msgUser : String → Option UserJson → RespBody
  | errBody : String → RespBody
  | fieldErrors : List String → RespBody
deriving DecidableEq, Repr

/-- An HTTP response: status code and JSON body. -/
structure Response where
  status : Nat
  body : RespBody
deriving DecidableEq, Repr

/-- Serialization of a full user row, as res.json does to `req.user` in
userRoutes.js lines 9, 14, 19 (every column of the row, password
included). -/
def userRowJson (u : User) : UserJson :=
  ⟨u.id, u.name, u.email, u.username, some u.password, u.role⟩

/-- Serialization of a user row after `delete user.password`
(signupRoute.js line 65). -/
def userRowJsonNoPassword (u : User) : UserJson :=
  ⟨u.id, u.name, u.email, u.username, none, u.role⟩

/-- All string values occurring in a serialized user object. -/
def UserJson.strings (uj : UserJson) : List String :=
  [uj.name, uj.email, uj.username, uj.role] ++ uj.password.toList

/-- All string values occurring in a response body. -/
def RespBody.strings : RespBody → List String
  | .msg m => [m]
  | .msgUser m uj? => m :: ((uj?.map UserJson.strings).getD [])
  | .errBody e => [e]
  | .fieldErrors es => es

/-- Whether a response body contains the given string (e.g. a stored
password hash) among its serialized values. -/
def Response.exposes (r : Response) (secret : String) : Bool :=
  r.body.strings.contains secret

/-- A JavaScript Error as the routes throw and forward via next(err).
AppError subclasses (src/utils/errors, part_003) carry a statusCode;
errors raised by the pg driver carry none. -/
structure JsErr where
  message : String
  statusCode : Option Nat
deriving DecidableEq, Repr

/-- BadRequestError: statusCode 400 (part_003 lines 11-15). -/
def BadRequestError (m : String) : JsErr := ⟨m, some 400⟩

/-- ConflictError: statusCode 409 (part_003 lines 39-43). -/
def ConflictError (m : String) : JsErr := ⟨m, some 409⟩

/-- Modelled from the spec: the store enforces unique email/username and
rejects a violating INSERT with a driver error.  The schema itself is
not in the sources; the error is the standard Postgres unique-violation
message and, like every pg driver error, it carries no statusCode. -/
def pgUniqueViolation (constraintName : String) : JsErr :=
  ⟨"duplicate key value violates unique constraint \"" ++ constraintName ++ "\"", none⟩

/-- The centralized error handler (part_001 lines 203-219): responds
with err.statusCode or 500, and the error message in the body. -/
def centralErrorHandler (e : JsErr) : Response :=
  ⟨e.statusCode.getD 500, .errBody e.message⟩

/-- Outcome the LocalStrategy verify callback passes to done():
done(null, user) or done(null, false, message). -/
inductive VerifyOutcome where
  | ok : User → VerifyOutcome
  | fail : String → VerifyOutcome
deriving DecidableEq, Repr

/-- The LocalStrategy verify callback (passportConfig.js lines 12-35).
`compare` embeds bcrypt.compare (plaintext, stored hash).  rows[0] of
the email query is the candidate user; no user or a failed compare both
yield the same generic failure message. -/
def localStrategyVerify (compare : String → String → Bool) (db : Store)
    (email password : String) : VerifyOutcome :=
  match (queryByEmail db email).head? with
  | none => .fail "Incorrect email or password."
  | some user =>
    if compare password user.password then .ok user
    else .fail "Incorrect email or password."

/-- passport.serializeUser (passportConfig.js lines 39-41): only the
user id is stored in the session record. -/
def serializeUser (u : User) : Nat := u.id

/-- passport.deserializeUser (passportConfig.js lines 44-52): re-fetch
the user row by id; rows[0], so a missing row yields nothing. -/
def deserializeUser (db : Store) (id : Nat) : Option User :=
  (queryById db id).head?

/-- Session establishment (req.logIn through passport/express-session):
the session record holds exactly the serialized user id. -/
def establish (u : User) : Option Nat := some (serializeUser u)

/-- Session destruction (req.logout): the session record is removed,
whatever it held. -/
def destroySession (_s : Option Nat) : Option Nat := none

/-- Session reconstitution performed by passport.session() on each
request: no session record means no user; a live record triggers
deserializeUser against the current store. -/
def reconstitute (db : Store) (s : Option Nat) : Option User :=
  match s with
  | none => none
  | some id => deserializeUser db id

/-- The POST /login handler (userRoutes.js part 3, lines 56-83) composed
with the centralized error handler.  Empty or missing email/password
(both falsy in JS, modelled as the empty string) short-circuits to
next(BadRequestError) before passport.authenticate runs; a verify
failure answers 401 with the strategy message; success calls
res.redirect to the root, modelled as a 302 whose body records the
location. -/
def loginResponse (compare : String → String → Bool) (db : Store)
    (email password : String) : Response :=
  if email = "" ∨ password = "" then
    centralErrorHandler (BadRequestError "Email and password are required")
  else
    match localStrategyVerify compare db email password with
    | .fail m => ⟨401, .msg m⟩
    | .ok _ => ⟨302, .msg "/"⟩

/-- Result of one middleware layer: pass the request on, or answer it. -/
inductive GateResult where
  | proceed : GateResult
  | halt : Response → GateResult
deriving DecidableEq, Repr

/-- ensureAuthenticated (authMiddleware.js lines 4-9).  The request
context carries req.user when req.isAuthenticated() holds. -/
def ensureAuthenticated (ctx : Option User) : GateResult :=
  match ctx with
  | some _ => .proceed
  | none => .halt ⟨401, .msg "Unauthorized"⟩

/-- ensureAdmin (roleMiddleware, part_002 lines 197-204): authenticated
and role strictly equal to admin. -/
def ensureAdmin (ctx : Option User) : GateResult :=
  match ctx with
  | some u =>
    if u.role = "admin" then .proceed
    else .halt ⟨403, .msg "Forbidden: Admin access required"⟩
  | none => .halt ⟨403, .msg "Forbidden: Admin access required"⟩

/-- ensureUser (part_002 lines 206-213): authenticated and role strictly
equal to user; no role hierarchy. -/
def ensureUser (ctx : Option User) : GateResult :=
  match ctx with
  | some u =>
    if u.role = "user" then .proceed
    else .halt ⟨403, .msg "Forbidden: User access required"⟩
  | none => .halt ⟨403, .msg "Forbidden: User access required"⟩

/-- ensureAdminOrUser (part_002 lines 216-222). -/
def ensureAdminOrUser (ctx : Option User) : GateResult :=
  match ctx with
  | some u =>
    if u.role = "admin" ∨ u.role = "user" then .proceed
    else .halt ⟨403, .msg "Forbidden: Access denied"⟩
  | none => .halt ⟨403, .msg "Forbidden: Access denied"⟩

/-- Express middleware chaining for a route with two gates before its
handler: each gate either answers the request or passes it on; the
second gate runs only if the first proceeded. -/
def route2 (gate1 gate2 : Option User → GateResult)
    (handler : Option User → Response) (ctx : Option User) : Response :=
  match gate1 ctx with
  | .halt r => r
  | .proceed =>
    match gate2 ctx with
    | .halt r => r
    | .proceed => handler ctx

/-- Final handler of GET /api/users/admin-dashboard (userRoutes.js
lines 8-10): res.json of a message and req.user in full. -/
def adminDashboardHandler (ctx : Option User) : Response :=
  ⟨200, .msgUser "Welcome to the Admin Dashboard" (ctx.map userRowJson)⟩

/-- Final handler of GET /api/users/user-profile (userRoutes.js
lines 13-15). -/
def userProfileHandler (ctx : Option User) : Response :=
  ⟨200, .msgUser "Welcome to your Profile" (ctx.map userRowJson)⟩

/-- Final handler of GET /api/users/dashboard (userRoutes.js
lines 18-20). -/
def dashboardHandler (ctx : Option User) : Response :=
  ⟨200, .msgUser "Welcome to the Dashboard" (ctx.map userRowJson)⟩

/-- GET /api/users/admin-dashboard: ensureAuthenticated, ensureAdmin,
then the handler. -/
def adminDashboard : Option User → Response :=
  route2 ensureAuthenticated ensureAdmin adminDashboardHandler

/-- GET /api/users/user-profile: ensureAuthenticated, ensureUser, then
the handler. -/
def userProfile : Option User → Response :=
  route2 ensureAuthenticated ensureUser userProfileHandler

/-- GET /api/users/dashboard: ensureAuthenticated, ensureAdminOrUser,
then the handler. -/
def dashboard : Option User → Response :=
  route2 ensureAuthenticated ensureAdminOrUser dashboardHandler

/-- The request body of POST /signup (signupRoute.js line 39). -/
structure SignupInput where
  name : String
  email : String
  username : String
  password : String
  role : String
deriving DecidableEq, Repr

/-- Whitespace as the trim() sanitizer strips it (the JavaScript
string-trim character class, restricted to the ASCII whitespace that
can occur in these inputs). -/
def isJsWhitespace (c : Char) : Bool :=
  c == ' ' || c == '\t' || c == '\n' || c == '\r'

/-- Embeds the trim() sanitizer of express-validator (JavaScript
String.prototype.trim): strip leading and trailing whitespace. -/
def jsTrim (s : String) : String :=
  String.mk (((s.data.dropWhile isJsWhitespace).reverse.dropWhile isJsWhitespace).reverse)

/-- The express-validator chain of POST /signup (signupRoute.js
lines 26-30), collected in declaration order by validationResult.
`isEmail` embeds the external validator.isEmail predicate; trim()
sanitizers apply before their checks. -/
def signupFieldErrors (isEmail : String → Bool) (i : SignupInput) : List String :=
  (if (jsTrim i.name).isEmpty then ["Name is required"] else []) ++
  (if isEmail (jsTrim i.email) then [] else ["Invalid email address"]) ++
  (if (jsTrim i.username).isEmpty then ["Username is required"] else []) ++
  (if i.password.length < 6 then ["Password must be at least 6 characters long"] else []) ++
  (if i.role = "admin" ∨ i.role = "user" then [] else
    ["Role must be either \"admin\" or \"user\""])

/-- Modelled from the spec: the INSERT against the store (signupRoute.js
lines 58-61) under the store's unique constraints on email and username
(the schema is not in the sources; the spec names the store's unique
constraint as final authority).  A duplicate raises a pg driver error
with no statusCode; otherwise the row is appended. -/
def dbInsertUser (db : Store) (u : User) : Except JsErr Store :=
  if db.any (fun v => v.email == u.email) then
    .error (pgUniqueViolation "users_email_key")
  else if db.any (fun v => v.username == u.username) then
    .error (pgUniqueViolation "users_username_key")
  else .ok (db ++ [u])

/-- The POST /signup handler (signupRoute.js lines 32-71) composed with
the centralized error handler.  `hashPw` embeds bcrypt.hash at the
fixed salt rounds.  `dbAtCheck` is the store state the two uniqueness
SELECTs observe and `dbAtInsert` the state the INSERT runs against;
they differ exactly when a concurrent registration commits in between.
Returns the response and the resulting store state. -/
def signupRoute (isEmail : String → Bool) (hashPw : String → String)
    (dbAtCheck dbAtInsert : Store) (newId : Nat) (i : SignupInput) :
    Response × Store :=
  let errs := signupFieldErrors isEmail i
  if errs.isEmpty then
    let name := jsTrim i.name
    let email := jsTrim i.email
    let username := jsTrim i.username
    if (queryByEmail dbAtCheck email).length > 0 then
      (centralErrorHandler (ConflictError "Email already exists"), dbAtInsert)
    else if (queryByUsername dbAtCheck username).length > 0 then
      (centralErrorHandler (ConflictError "Username already exists"), dbAtInsert)
    else
      let newUser : User := ⟨newId, name, email, username, hashPw i.password, i.role⟩
      match dbInsertUser dbAtInsert newUser with
      | .ok db' =>
        (⟨201, .msgUser "User registered successfully" (some (userRowJsonNoPassword newUser))⟩, db')
      | .error e => (centralErrorHandler e, dbAtInsert)
  else (⟨400, .fieldErrors errs⟩, dbAtInsert)

/-- The names bound in scope at the error branch of the GET /logout
handler (userRoutes.js part 3, lines 85-92): the route callback binds
req and res only — not next — and the req.logout callback binds err. -/
def logoutCallbackScope : List String := ["req", "res", "err"]

/-- Outcome of running a route handler: a response, or an uncaught
JavaScript exception identified by its message. -/
inductive HandlerOutcome where
  | resp : Response → HandlerOutcome
  | thrown : String → HandlerOutcome
deriving DecidableEq, Repr

/-- The GET /logout handler (userRoutes.js part 3, lines 85-92).
req.logout reports an error or not; on error the code evaluates the
name next, which is only meaningful if bound in the callback scope —
otherwise the evaluation throws a ReferenceError.  On success the
handler answers 200 with the confirmation message. -/
def logoutHandler (logoutErr : Option JsErr) : HandlerOutcome :=
  match logoutErr with
  | some e =>
    if "next" ∈ logoutCallbackScope then .resp (centralErrorHandler e)
    else .thrown "ReferenceError: next is not defined"
  | none => .resp ⟨200, .msg "Logout successful"⟩

/-- C1: refuted by the code — the protected-resource handlers serialize
req.user in full, so the 200 response of GET /api/users/dashboard for an
authenticated user contains the stored password hash among its body
values. -/
theorem dashboard_response_contains_password_hash :
    dashboard (some ⟨1, "A", "a@x.com", "a", "$2b$10$storedhash", "user"⟩) =
      ⟨200, .msgUser "Welcome to the Dashboard"
        (some ⟨1, "A", "a@x.com", "a", some "$2b$10$storedhash", "user"⟩)⟩ ∧
    (dashboard (some ⟨1, "A", "a@x.com", "a", "$2b$10$storedhash", "user"⟩)).exposes
        "$2b$10$storedhash" = true := by
  exact ⟨rfl, rfl⟩

/-- C2 counterexample: an unknown email submitted with an empty password
is rejected by the input guard as a 400 with message
"Email and password are required", not the claimed 401 with
"Incorrect email or password.". -/
theorem login_empty_password_counterexample :
    loginResponse (fun _ _ => false) [] "a@x.com" "" =
      ⟨400, .errBody "Email and password are required"⟩ ∧
    loginResponse (fun _ _ => false) [] "a@x.com" "" ≠
      ⟨401, .msg "Incorrect email or password."⟩ := by
  exact ⟨rfl, by decide⟩

/-- C2 (amended): for nonempty credentials, an unknown email and a
registered email with a wrong password produce the identical generic
401 failure; an empty or missing email or password makes both runs
produce the identical 400 rejection independent of the store and the
comparator — so in every case the two runs remain indistinguishable to
the client. -/
theorem login_failure_indistinguishable
    (compare : String → String → Bool) (db : Store) (email pw : String) :
    (email ≠ "" → pw ≠ "" → queryByEmail db email = [] →
      loginResponse compare db email pw = ⟨401, .msg "Incorrect email or password."⟩) ∧
    (∀ u, email ≠ "" → pw ≠ "" → (queryByEmail db email).head? = some u →
      compare pw u.password = false →
      loginResponse compare db email pw = ⟨401, .msg "Incorrect email or password."⟩) ∧
    ((email = "" ∨ pw = "") → ∀ (compare' : String → String → Bool) (db' : Store),
      loginResponse compare db email pw = ⟨400, .errBody "Email and password are required"⟩ ∧
      loginResponse compare db email pw = loginResponse compare' db' email pw) := by
  refine ⟨?_, ?_, ?_⟩
  · intro h1 h2 hq
    simp [loginResponse, localStrategyVerify, h1, h2, hq]
  · intro u h1 h2 hu hc
    simp [loginResponse, localStrategyVerify, h1, h2, hu, hc]
  · intro h compare' db'
    rcases h with h | h <;>
      exact ⟨by simp [loginResponse, h, centralErrorHandler, BadRequestError],
             by simp [loginResponse, h]⟩

/-- C2 witness: with an empty store, a login for b@x.com with password
secret1 is the generic 401 failure. -/
theorem login_failure_indistinguishable_witness :
    loginResponse (fun _ _ => false) [] "b@x.com" "secret1" =
      ⟨401, .msg "Incorrect email or password."⟩ :=
  (login_failure_indistinguishable (fun _ _ => false) [] "b@x.com" "secret1").1
    (by decide) (by decide) rfl

/-- C3: refuted by the code — when the uniqueness pre-checks pass but a
concurrent duplicate commits before the INSERT, the store's
unique-violation error carries no statusCode, so the centralized error
handler answers 500, not a 409-class rejection. -/
theorem signup_race_unique_violation_yields_500 :
    queryByEmail ([] : Store) "a@x.com" = [] ∧
    (signupRoute (fun _ => true) (fun p => "h-" ++ p) []
        [⟨1, "B", "a@x.com", "b", "H", "user"⟩] 2
        ⟨"A", "a@x.com", "a", "secret1", "user"⟩).1 =
      ⟨500, .errBody "duplicate key value violates unique constraint \"users_email_key\""⟩ := by
  exact ⟨rfl, by decide⟩

/-- C4 counterexample: with the user a@x.com stored and the correct
password supplied, login with the exact email succeeds (302 redirect)
but login with the differently-cased A@X.COM misses the case-sensitive
lookup and fails with the generic 401, refuting the claimed
case-insensitive match. -/
theorem login_case_sensitivity_counterexample :
    loginResponse (fun p h => p == "pw" && h == "H")
        [⟨1, "A", "a@x.com", "a", "H", "user"⟩] "a@x.com" "pw" = ⟨302, .msg "/"⟩ ∧
    loginResponse (fun p h => p == "pw" && h == "H")
        [⟨1, "A", "a@x.com", "a", "H", "user"⟩] "A@X.COM" "pw" =
      ⟨401, .msg "Incorrect email or password."⟩ := by
  exact ⟨rfl, rfl⟩

/-- C4 (amended): the email lookup is a case-sensitive exact match — a
submitted email whose stored spelling matches verbatim and whose
password verifies logs in, while any submitted email not stored
verbatim (in particular a differently-cased spelling of a stored email)
yields the generic 401 failure even when the password is correct. -/
theorem login_lookup_case_sensitive
    (compare : String → String → Bool) (db : Store) (email pw : String)
    (h1 : email ≠ "") (h2 : pw ≠ "") :
    ((∀ u ∈ db, u.email ≠ email) →
      loginResponse compare db email pw = ⟨401, .msg "Incorrect email or password."⟩) ∧
    (∀ u, (queryByEmail db email).head? = some u → compare pw u.password = true →
      loginResponse compare db email pw = ⟨302, .msg "/"⟩) := by
  constructor
  · intro hmiss
    have hq : queryByEmail db email = [] := by
      refine List.filter_eq_nil_iff.mpr ?_
      intro u hu
      simp only [beq_iff_eq]
      exact hmiss u hu
    simp [loginResponse, localStrategyVerify, h1, h2, hq]
  · intro u hu hc
    simp [loginResponse, localStrategyVerify, h1, h2, hu, hc]

/-- C4 witness: the differently-cased A@X.COM with the correct password
fails with the generic 401 even though a@x.com is stored. -/
theorem login_lookup_case_sensitive_witness :
    loginResponse (fun p h => p == "pw" && h == "H")
        [⟨1, "A", "a@x.com", "a", "H", "user"⟩] "A@X.COM" "pw" =
      ⟨401, .msg "Incorrect email or password."⟩ :=
  (login_lookup_case_sensitive (fun p h => p == "pw" && h == "H")
      [⟨1, "A", "a@x.com", "a", "H", "user"⟩] "A@X.COM" "pw"
      (by decide) (by decide)).1 (by decide)

/-- C5 counterexample: a login with an empty email is answered with
status 400 (BadRequestError, "Email and password are required"), not
the claimed 401 classification. -/
theorem login_missing_credentials_counterexample :
    loginResponse (fun _ _ => false) [] "" "secret1" =
      ⟨400, .errBody "Email and password are required"⟩ ∧
    (loginResponse (fun _ _ => false) [] "" "secret1").status ≠ 401 := by
  exact ⟨rfl, by decide⟩

/-- C5 (amended): an empty or missing email or password is rejected
before any credential-store lookup and before any hash computation —
the response is the 400 BadRequestError rejection, identical whatever
the store and the comparator — and not a 401. -/
theorem login_missing_credentials_fail_fast
    (compare compare' : String → String → Bool) (db db' : Store)
    (email pw : String) (h : email = "" ∨ pw = "") :
    loginResponse compare db email pw =
      ⟨400, .errBody "Email and password are required"⟩ ∧
    loginResponse compare db email pw = loginResponse compare' db' email pw := by
  rcases h with h | h <;>
    exact ⟨by simp [loginResponse, h, centralErrorHandler, BadRequestError],
           by simp [loginResponse, h]⟩

/-- C5 witness: concrete empty-email login answers the 400 rejection. -/
theorem login_missing_credentials_fail_fast_witness :
    loginResponse (fun _ _ => false) [] "" "secret1" =
      ⟨400, .errBody "Email and password are required"⟩ :=
  (login_missing_credentials_fail_fast (fun _ _ => false) (fun _ _ => true)
    [] [⟨1, "A", "a@x.com", "a", "H", "user"⟩] "" "secret1" (Or.inl rfl)).1

/-- C6: when validation passes, a duplicate email yields the 409
"Email already exists" rejection with the store unchanged; with the
email fresh, a duplicate username yields the 409 "Username already
exists" rejection with the store unchanged.  The email check runs
first: its rejection holds whether or not the username also
conflicts. -/
theorem signup_conflict_no_insert
    (isEmail : String → Bool) (hashPw : String → String) (db : Store)
    (newId : Nat) (i : SignupInput)
    (hv : signupFieldErrors isEmail i = []) :
    (queryByEmail db (jsTrim i.email) ≠ [] →
      signupRoute isEmail hashPw db db newId i =
        (⟨409, .errBody "Email already exists"⟩, db)) ∧
    (queryByEmail db (jsTrim i.email) = [] → queryByUsername db (jsTrim i.username) ≠ [] →
      signupRoute isEmail hashPw db db newId i =
        (⟨409, .errBody "Username already exists"⟩, db)) := by
  constructor
  · intro he
    have hlen : 0 < (queryByEmail db (jsTrim i.email)).length := List.length_pos.mpr he
    simp [signupRoute, hv, hlen, centralErrorHandler, ConflictError]
  · intro he hu
    have hlen : 0 < (queryByUsername db (jsTrim i.username)).length := List.length_pos.mpr hu
    simp [signupRoute, hv, he, hlen, centralErrorHandler, ConflictError]

/-- C6 witness: re-registering a stored email with a fresh username is
rejected 409 naming the email field, and the store is unchanged. -/
theorem signup_conflict_no_insert_witness :
    signupRoute (fun _ => true) (fun p => "h-" ++ p)
        [⟨1, "A", "a@x.com", "a", "H", "user"⟩] [⟨1, "A", "a@x.com", "a", "H", "user"⟩] 2
        ⟨"B", "a@x.com", "c", "secret1", "user"⟩ =
      (⟨409, .errBody "Email already exists"⟩, [⟨1, "A", "a@x.com", "a", "H", "user"⟩]) :=
  (signup_conflict_no_insert (fun _ => true) (fun p => "h-" ++ p)
    [⟨1, "A", "a@x.com", "a", "H", "user"⟩] 2 ⟨"B", "a@x.com", "c", "secret1", "user"⟩
    (by decide)).1 (by decide)

/-- C7: on GET /api/users/admin-dashboard an authenticated admin passes
both gates and gets the 200 handler response; an authenticated
user-role principal is denied 403 by the role gate; an unauthenticated
request is answered 401 by the authentication gate, and its outcome is
the same whatever role gate follows — the role check is never
reached. -/
theorem admin_dashboard_gates (u : User) :
    (u.role = "admin" → adminDashboard (some u) =
      ⟨200, .msgUser "Welcome to the Admin Dashboard" (some (userRowJson u))⟩) ∧
    (u.role = "user" → adminDashboard (some u) =
      ⟨403, .msg "Forbidden: Admin access required"⟩) ∧
    adminDashboard none = ⟨401, .msg "Unauthorized"⟩ ∧
    (∀ g g' : Option User → GateResult,
      route2 ensureAuthenticated g adminDashboardHandler none =
        route2 ensureAuthenticated g' adminDashboardHandler none) := by
  refine ⟨?_, ?_, rfl, fun g g' => rfl⟩
  · intro h
    simp [adminDashboard, route2, ensureAuthenticated, ensureAdmin, h, adminDashboardHandler]
  · intro h
    simp [adminDashboard, route2, ensureAuthenticated, ensureAdmin, h]

/-- C7 witness: a concrete admin is allowed (200) and a concrete
user-role principal is denied (403) on the admin dashboard. -/
theorem admin_dashboard_gates_witness :
    adminDashboard (some ⟨1, "A", "a@x.com", "a", "H", "admin"⟩) =
      ⟨200, .msgUser "Welcome to the Admin Dashboard"
        (some (userRowJson ⟨1, "A", "a@x.com", "a", "H", "admin"⟩))⟩ ∧
    adminDashboard (some ⟨2, "B", "b@x.com", "b", "H", "user"⟩) =
      ⟨403, .msg "Forbidden: Admin access required"⟩ :=
  ⟨(admin_dashboard_gates ⟨1, "A", "a@x.com", "a", "H", "admin"⟩).1 rfl,
   (admin_dashboard_gates ⟨2, "B", "b@x.com", "b", "H", "user"⟩).2.1 rfl⟩

/-- C8: establishing a session stores only the user id; reconstitution
re-fetches the live user with that id from the current store (so later
changes to the stored row are honored, not stale-cached); a fresh
session reconstitutes the authenticated user while its row is stored;
a destroyed session never reconstitutes a user. -/
theorem session_codec_round_trip (db : Store) (u u' : User) (s : Option Nat) :
    establish u = some u.id ∧
    reconstitute db (establish u) = deserializeUser db u.id ∧
    (deserializeUser db u.id = some u' → reconstitute db (establish u) = some u') ∧
    (deserializeUser db u.id = some u → reconstitute db (establish u) = some u) ∧
    reconstitute db (destroySession s) = none := by
  exact ⟨rfl, rfl, fun h => h, fun h => h, rfl⟩

/-- C8 witness: a freshly established session for a stored user
reconstitutes that user. -/
theorem session_codec_round_trip_witness :
    reconstitute [⟨1, "A", "a@x.com", "a", "H", "user"⟩]
        (establish ⟨1, "A", "a@x.com", "a", "H", "user"⟩) =
      some ⟨1, "A", "a@x.com", "a", "H", "user"⟩ :=
  (session_codec_round_trip [⟨1, "A", "a@x.com", "a", "H", "user"⟩]
      ⟨1, "A", "a@x.com", "a", "H", "user"⟩ ⟨1, "A", "a@x.com", "a", "H", "user"⟩
      none).2.2.2.1 (by decide)

/-- C9: the GET /logout error branch evaluates the name next, which is
not bound in the handler scope, so it throws a ReferenceError instead
of producing a response; only the success branch answers 200 with the
confirmation. -/
theorem logout_error_branch_reference_error (e : JsErr) :
    logoutHandler (some e) = .thrown "ReferenceError: next is not defined" ∧
    logoutHandler none = .resp ⟨200, .msg "Logout successful"⟩ := by
  exact ⟨rfl, rfl⟩

/-- C10: the role gates are exact-match with no hierarchy — on
GET /api/users/user-profile an authenticated admin-role principal is
denied 403 by ensureUser; the admin role is not a superset of the user
role. -/
theorem ensure_user_denies_admin (u : User) (h : u.role = "admin") :
    userProfile (some u) = ⟨403, .msg "Forbidden: User access required"⟩ := by
  simp [userProfile, route2, ensureAuthenticated, ensureUser, h]

/-- C10 witness: a concrete admin is denied on the user-only profile
route. -/
theorem ensure_user_denies_admin_witness :
    userProfile (some ⟨1, "A", "a@x.com", "a", "H", "admin"⟩) =
      ⟨403, .msg "Forbidden: User access required"⟩ :=
  ensure_user_denies_admin ⟨1, "A", "a@x.com", "a", "H", "admin"⟩ rfl

end Server
